import Mathlib

/-!
Verification development for the rfb crate (an RFB / VNC server library).

The definitions below are a shallow embedding of the Rust sources:

- src/pixel_formats.rs : the pixel format templates, the fourcc registry and
  the pixel transcoder `transform`;
- src/rfb/mod.rs       : the wire codec (SecurityType, ProtoVersion,
  ClientCutText reading, ServerInit);
- src/server.rs        : the connection handshake and initialisation.

Machine integers are modelled as Nat with explicit truncation (`% 4294967296`)
where u32 wrap-around matters.  Rust panics (slice index out of bounds,
integer division by zero, reaching an unimplemented arm) are modelled by the
error side of an `Except`: a value `Except.error _` means the Rust code
aborts at that point instead of returning.
-/

namespace Rfb

/-- Word assembled from four bytes in little-endian order, as in
`u32::from_le_bytes` (byte 0 is least significant). -/
def u32_from_le_bytes (b0 b1 b2 b3 : Nat) : Nat :=
  b0 + 256 * b1 + 65536 * b2 + 16777216 * b3

/-- Word assembled from four bytes in big-endian order, as in
`u32::from_be_bytes` (byte 0 is most significant). -/
def u32_from_be_bytes (b0 b1 b2 b3 : Nat) : Nat :=
  b3 + 256 * b2 + 65536 * b1 + 16777216 * b0

/-- The four bytes of a u32 in little-endian order, as in `u32::to_le_bytes`. -/
def u32_to_le_bytes (w : Nat) : List Nat :=
  [w % 256, w / 256 % 256, w / 65536 % 256, w / 16777216 % 256]

/-- The four bytes of a u32 in big-endian order, as in `u32::to_be_bytes`. -/
def u32_to_be_bytes (w : Nat) : List Nat :=
  [w / 16777216 % 256, w / 65536 % 256, w / 256 % 256, w % 256]

/-- Embeds `struct ColorFormat` of src/rfb/mod.rs: the true-colour channel
description (maxes are u16 on the wire, shifts are u8). -/
structure ColorFormat where
  red_max : Nat
  green_max : Nat
  blue_max : Nat
  red_shift : Nat
  green_shift : Nat
  blue_shift : Nat
deriving DecidableEq, Repr

/-- Embeds `enum ColorSpecification` of src/rfb/mod.rs.  The Rust `ColorMap`
payload is an empty struct, so the constructor carries no data.  The derived
Rust `PartialEq` is structural, matching the derived `DecidableEq` here. -/
inductive ColorSpecification where
  | ColorFormat (cf : ColorFormat)
  | ColorMap
deriving DecidableEq, Repr

/-- Embeds `struct PixelFormat` of src/rfb/mod.rs (section 7.4 of RFC 6143). -/
structure PixelFormat where
  bits_per_pixel : Nat
  depth : Nat
  big_endian : Bool
  color_spec : ColorSpecification
deriving DecidableEq, Repr

/-- Embeds `u8::next_power_of_two` on the u8 range (the sources only apply it
to `bits_per_pixel : u8`): the smallest power of two that is greater than or
equal to the argument, with 0 mapped to 1.  For u8 inputs above 128 the Rust
call overflows (a debug abort) while this model returns 256: the model is
faithful only for inputs at most 128, so theorems quantifying over formats
constrain `bits_per_pixel` to the spec range {8, 16, 32}. -/
def next_power_of_two (n : Nat) : Nat :=
  if 128 < n then 256
  else if 64 < n then 128
  else if 32 < n then 64
  else if 16 < n then 32
  else if 8 < n then 16
  else if 4 < n then 8
  else if 2 < n then 4
  else if 1 < n then 2
  else 1

/-- Panic points of `transform` in src/pixel_formats.rs, used as the error
side of the embedding.  Each constructor marks a place where the Rust code
aborts: the `unimplemented` arms for indexed colour, the slice index
`pixels[i..i + 4]` running past the end of the buffer, an integer division by
zero in the channel rescale, and (for completeness of the fuel-based loop
model) the loop failing to advance when the computed bytes-per-pixel is 0. -/
inductive TransformPanic where
  | unimplementedColorMap
  | indexOutOfBounds
  | divideByZero
  | nonTermination
deriving DecidableEq, Repr

/-- Rust integer division, which aborts on a zero divisor (modelled as
`Except.error TransformPanic.divideByZero`). -/
def checked_div (a b : Nat) : Except TransformPanic Nat :=
  if b = 0 then Except.error TransformPanic.divideByZero else Except.ok (a / b)

/-- Embeds the `while i < pixels.len()` loop of `transform`
(src/pixel_formats.rs lines 299-331), one fuel unit per iteration.  Per
iteration the source copies `pixels[i..i + 4]` into a 4-byte array (note: four
bytes, not `in_bytes_pp` bytes - the slice panics when `i + 4` exceeds the
buffer length), widens to a u32 honouring `input.big_endian`, extracts each
channel with the INPUT shifts and maxes, rescales each channel by
`raw * out_cf.max / in_cf.max`, reassembles with the shifts of `out_cf`,
serialises honouring `output.big_endian` and appends the first `out_bytes_pp`
bytes, then advances `i` by `in_bytes_pp`.  Shifts are modelled totally with
u32 truncation (release semantics); for formats with `bits_per_pixel` outside
{8, 16, 32} debug Rust additionally aborts on shift amounts of 32 or more
(and on the usize underflow in `4 - bytes_pp`), which this model does not
reproduce, so theorems quantifying over formats constrain `bits_per_pixel`
to the spec range. -/
def transform_loop (pixels : List Nat) (input output : PixelFormat)
    (in_cf out_cf : ColorFormat)
    (in_bytes_pp out_bytes_pp in_be_shift out_be_shift : Nat) :
    Nat → Nat → List Nat → Except TransformPanic (List Nat)
  | 0, _, _ => Except.error TransformPanic.nonTermination
  | fuel + 1, i, buf =>
    if i < pixels.length then
      if i + 4 ≤ pixels.length then
        let word :=
          if input.big_endian then
            u32_from_be_bytes (pixels.getD i 0) (pixels.getD (i + 1) 0)
              (pixels.getD (i + 2) 0) (pixels.getD (i + 3) 0) >>> in_be_shift
          else
            u32_from_le_bytes (pixels.getD i 0) (pixels.getD (i + 1) 0)
              (pixels.getD (i + 2) 0) (pixels.getD (i + 3) 0)
        let ir_raw := Nat.land (word >>> in_cf.red_shift) in_cf.red_max
        let ig_raw := Nat.land (word >>> in_cf.green_shift) in_cf.green_max
        let ib_raw := Nat.land (word >>> in_cf.blue_shift) in_cf.blue_max
        match checked_div (ir_raw * out_cf.red_max) in_cf.red_max with
        | Except.error e => Except.error e
        | Except.ok ir =>
          match checked_div (ig_raw * out_cf.green_max) in_cf.green_max with
          | Except.error e => Except.error e
          | Except.ok ig =>
            match checked_div (ib_raw * out_cf.blue_max) in_cf.blue_max with
            | Except.error e => Except.error e
            | Except.ok ib =>
              let r_word := (ir <<< out_cf.red_shift) % 4294967296
              let g_word := (ig <<< out_cf.green_shift) % 4294967296
              let b_word := (ib <<< out_cf.blue_shift) % 4294967296
              let word2 := Nat.lor (Nat.lor r_word g_word) b_word
              let out_bytes :=
                if output.big_endian then
                  u32_to_be_bytes ((word2 <<< out_be_shift) % 4294967296)
                else
                  u32_to_le_bytes word2
              transform_loop pixels input output in_cf out_cf
                in_bytes_pp out_bytes_pp in_be_shift out_be_shift
                fuel (i + in_bytes_pp) (buf ++ out_bytes.take out_bytes_pp)
      else Except.error TransformPanic.indexOutOfBounds
    else Except.ok buf

/-- Embeds `pub fn transform` of src/pixel_formats.rs (lines 279-334).  If the
input and output formats are structurally equal the pixel buffer is returned
unchanged.  Otherwise byte widths are derived from `bits_per_pixel`, and the
two `let ... else` bindings extract the colour formats: NOTE that the source
binds BOTH `in_cf` and `out_cf` from `input.color_spec` (line 295 reads
`&input.color_spec`, not `&output.color_spec`), which this embedding
reproduces faithfully.  A fuel of `pixels.length + 1` is enough for the loop
whenever `in_bytes_pp` is at least 1. -/
def transform (pixels : List Nat) (input output : PixelFormat) :
    Except TransformPanic (List Nat) :=
  if input = output then Except.ok pixels
  else
    let in_bytes_pp := next_power_of_two input.bits_per_pixel / 8
    let out_bytes_pp := next_power_of_two output.bits_per_pixel / 8
    let in_be_shift := 8 * (4 - in_bytes_pp)
    let out_be_shift := 8 * (4 - out_bytes_pp)
    match input.color_spec with
    | ColorSpecification.ColorMap => Except.error TransformPanic.unimplementedColorMap
    | ColorSpecification.ColorFormat in_cf =>
      match input.color_spec with
      | ColorSpecification.ColorMap => Except.error TransformPanic.unimplementedColorMap
      | ColorSpecification.ColorFormat out_cf =>
        transform_loop pixels input output in_cf out_cf
          in_bytes_pp out_bytes_pp in_be_shift out_be_shift
          (pixels.length + 1) 0 []

/-- Embeds the `ColorConstants` trait of src/pixel_formats.rs: a colour family
is given by the bit widths of its three channels. -/
structure ColorConstants where
  red_bits : Nat
  green_bits : Nat
  blue_bits : Nat
deriving DecidableEq, Repr

/-- Trait constant DEPTH: the number of colour bits in a pixel. -/
def ColorConstants.depth (c : ColorConstants) : Nat :=
  c.red_bits + c.green_bits + c.blue_bits

/-- Trait constant BYTES_PER_PIXEL: `DEPTH.next_power_of_two() / 8`. -/
def ColorConstants.bytes_per_pixel (c : ColorConstants) : Nat :=
  next_power_of_two c.depth / 8

/-- Trait constant BITS_PER_PIXEL. -/
def ColorConstants.bits_per_pixel (c : ColorConstants) : Nat :=
  c.bytes_per_pixel * 8

/-- Trait constant RED_MAX: `(1 << RED_BITS) - 1`. -/
def ColorConstants.red_max (c : ColorConstants) : Nat := 2 ^ c.red_bits - 1

/-- Trait constant GREEN_MAX. -/
def ColorConstants.green_max (c : ColorConstants) : Nat := 2 ^ c.green_bits - 1

/-- Trait constant BLUE_MAX. -/
def ColorConstants.blue_max (c : ColorConstants) : Nat := 2 ^ c.blue_bits - 1

/-- Embeds `ColorConstants::to_pix_fmt` of src/pixel_formats.rs (lines
170-200): builds the PixelFormat for a channel ordering and base shift.  BGR
order places red at the base shift; RGB order places blue at the base shift.
Both arms set `big_endian: false`. -/
def ColorConstants.to_pix_fmt (c : ColorConstants) (bgr_order : Bool)
    (base_shift : Nat) : PixelFormat :=
  if bgr_order then
    { bits_per_pixel := c.bits_per_pixel
      depth := c.depth
      big_endian := false
      color_spec := ColorSpecification.ColorFormat
        { red_max := c.red_max
          green_max := c.green_max
          blue_max := c.blue_max
          red_shift := base_shift
          green_shift := base_shift + c.red_bits
          blue_shift := base_shift + c.red_bits + c.green_bits } }
  else
    { bits_per_pixel := c.bits_per_pixel
      depth := c.depth
      big_endian := false
      color_spec := ColorSpecification.ColorFormat
        { red_max := c.red_max
          green_max := c.green_max
          blue_max := c.blue_max
          red_shift := base_shift + c.green_bits + c.blue_bits
          green_shift := base_shift + c.blue_bits
          blue_shift := base_shift } }

/-- The `Rgb888Formats` family: 8 bits per channel. -/
def Rgb888Formats : ColorConstants := { red_bits := 8, green_bits := 8, blue_bits := 8 }

/-- The `Rgb565Formats` family: 5, 6 and 5 bits. -/
def Rgb565Formats : ColorConstants := { red_bits := 5, green_bits := 6, blue_bits := 5 }

/-- The `Rgb332Formats` family: 3, 3 and 2 bits. -/
def Rgb332Formats : ColorConstants := { red_bits := 3, green_bits := 3, blue_bits := 2 }

/-- Embeds `enum FourCC` of src/pixel_formats.rs. -/
inductive FourCC where
  | XR24 | RX24 | XB24 | BX24 | RG16 | BG16 | RGB8 | BGR8
deriving DecidableEq, Repr

/-- Embeds `impl From<&FourCC> for PixelFormat` of src/pixel_formats.rs
(lines 124-137). -/
def FourCC.to_pixel_format : FourCC → PixelFormat
  | FourCC.XR24 => Rgb888Formats.to_pix_fmt false 0
  | FourCC.RX24 => Rgb888Formats.to_pix_fmt false 8
  | FourCC.XB24 => Rgb888Formats.to_pix_fmt true 0
  | FourCC.BX24 => Rgb888Formats.to_pix_fmt true 8
  | FourCC.RG16 => Rgb565Formats.to_pix_fmt false 0
  | FourCC.BG16 => Rgb565Formats.to_pix_fmt true 0
  | FourCC.RGB8 => Rgb332Formats.to_pix_fmt false 0
  | FourCC.BGR8 => Rgb332Formats.to_pix_fmt true 0

/-- The u32 word a pixel buffer denotes under a format, following the
colour-extraction recipe in the module documentation of
src/pixel_formats.rs (lines 19-53) and step 1 of the transcoder: read four
bytes; a big-endian format reads them big-endian and shifts right so that the
significant `bits_per_pixel` bits remain, a little-endian format reads them
little-endian. -/
def pixel_word (p : List Nat) (f : PixelFormat) : Nat :=
  if f.big_endian then
    u32_from_be_bytes (p.getD 0 0) (p.getD 1 0) (p.getD 2 0) (p.getD 3 0)
      >>> (8 * (4 - next_power_of_two f.bits_per_pixel / 8))
  else
    u32_from_le_bytes (p.getD 0 0) (p.getD 1 0) (p.getD 2 0) (p.getD 3 0)

/-- Red channel of a single pixel under a format: `(word >> red_shift) &
red_max`, the shift-and-mask recipe of src/pixel_formats.rs (lines 23-26 and
310-312).  Indexed-colour formats have no channels; 0 is returned. -/
def extract_red (p : List Nat) (f : PixelFormat) : Nat :=
  match f.color_spec with
  | ColorSpecification.ColorFormat cf => Nat.land (pixel_word p f >>> cf.red_shift) cf.red_max
  | ColorSpecification.ColorMap => 0

/-- Embeds `enum ProtoVersion` of src/rfb/mod.rs.  The Rust type derives
`PartialOrd`, which orders variants by declaration order. -/
inductive ProtoVersion where
  | Rfb33 | Rfb37 | Rfb38
deriving DecidableEq, Repr

/-- Declaration index of a ProtoVersion variant, the key of the derived
Rust `PartialOrd`. -/
def ProtoVersion.idx : ProtoVersion → Nat
  | ProtoVersion.Rfb33 => 0
  | ProtoVersion.Rfb37 => 1
  | ProtoVersion.Rfb38 => 2

/-- The derived `<` of `ProtoVersion` in src/rfb/mod.rs: comparison by
declaration order. -/
def ProtoVersion.lt (a b : ProtoVersion) : Bool :=
  a.idx < b.idx

/-- Embeds `enum SecurityType` of src/rfb/mod.rs. -/
inductive SecurityType where
  | None | VncAuthentication
deriving DecidableEq, BEq, Repr

/-- Embeds `impl WriteMessage for SecurityType` (src/rfb/mod.rs lines
105-118): the byte written for each variant. -/
def SecurityType.write_byte : SecurityType → Nat
  | SecurityType.None => 0
  | SecurityType.VncAuthentication => 1

/-- Embeds `impl ReadMessage for SecurityType` (src/rfb/mod.rs lines 91-103):
the variant decoded from a received byte; any byte other than 1 or 2 is a
read error, modelled as `none`. -/
def SecurityType.read_byte (b : Nat) : Option SecurityType :=
  if b = 1 then some SecurityType.None
  else if b = 2 then some SecurityType.VncAuthentication
  else none

/-- Messages the server writes during the handshake, abstracting the byte
stream of src/rfb/mod.rs: the 12-byte version string, the advertised security
type list, and the two SecurityResult variants. -/
inductive WireWrite where
  | protoVersion (v : ProtoVersion)
  | securityTypes (ts : List SecurityType)
  | securityResultSuccess
  | securityResultFailure (reason : String)
deriving DecidableEq, Repr

/-- Predicate picking out a SecurityResult::Failure write. -/
def WireWrite.is_failure : WireWrite → Bool
  | WireWrite.securityResultFailure _ => true
  | _ => false

/-- Embeds `struct VncServerConfig` of src/server.rs (the bind address is
irrelevant to the handshake and omitted from the model). -/
structure VncServerConfig where
  version : ProtoVersion
  sec_types : List SecurityType
  name : String

/-- Embeds `VncServer::rfb_handshake` of src/server.rs (lines 76-112) as a
function of the parsed client version and the raw security-choice byte.  The
result is the list of messages written and `true` when the handshake returned
`Ok(())` (`false` means the function bailed with an error, after which
`handle_conn` returns and the connection closes).  Write order follows the
source: server version first; bail if `client_version < config.version`;
otherwise write the advertised types, decode the client choice byte (a decode
failure propagates via `?` with nothing further written), write
`SecurityResult::Failure` and bail when the decoded choice is not contained
in the advertised list, else write `SecurityResult::Success`. -/
def rfb_handshake (config : VncServerConfig) (client_version : ProtoVersion)
    (choice_byte : Nat) : List WireWrite × Bool :=
  let w0 := [WireWrite.protoVersion config.version]
  if ProtoVersion.lt client_version config.version then (w0, false)
  else
    let w1 := w0 ++ [WireWrite.securityTypes config.sec_types]
    match SecurityType.read_byte choice_byte with
    | none => (w1, false)
    | some choice =>
      if config.sec_types.contains choice then
        (w1 ++ [WireWrite.securityResultSuccess], true)
      else
        (w1 ++ [WireWrite.securityResultFailure "unsupported security type"], false)

/-- Embeds `struct VncServerData` of src/server.rs (lines 30-37): the mutable
server state snapshot. -/
structure VncServerData where
  width : Nat
  height : Nat
  input_pixel_format : PixelFormat

/-- Embeds `struct Resolution` of src/rfb/mod.rs. -/
structure Resolution where
  width : Nat
  height : Nat
deriving DecidableEq, Repr

/-- Embeds `struct ServerInit` of src/rfb/mod.rs (lines 166-170). -/
structure ServerInit where
  initial_res : Resolution
  pixel_format : PixelFormat
  name : String

/-- Modelled from the spec: the constructor `ServerInit::new` of the newer
rfb module is not under src/ (src/server.rs calls it with four arguments at
lines 124-129, but the rfb/mod.rs present in src/ is the older revision whose
constructor takes three).  Per the spec, section 4.G step 3: take a snapshot
of Data (width, height, input pixel format), build ServerInit, write it; and
section 4.F: `ServerInit: Resolution (width, height) then PixelFormat then
name`.  The constructor therefore stores its four arguments. -/
def ServerInit.new (width height : Nat) (name : String) (pf : PixelFormat) :
    ServerInit :=
  { initial_res := { width := width, height := height }
    pixel_format := pf
    name := name }

/-- Embeds `VncServer::rfb_initialization` of src/server.rs (lines 114-134):
after reading ClientInit (whose shared flag has no effect), the Data snapshot
is taken and `ServerInit::new(data.width, data.height, config.name,
data.input_pixel_format)` is built and written.  The function returns the
ServerInit value written to the stream. -/
def rfb_initialization (config : VncServerConfig) (data : VncServerData) :
    ServerInit :=
  ServerInit.new data.width data.height config.name data.input_pixel_format

/-- Reads one byte from a byte stream. -/
def read_u8 (s : List Nat) : Option (Nat × List Nat) :=
  match s with
  | [] => none
  | b :: rest => some (b, rest)

/-- Reads a big-endian u32 from a byte stream, as `read_u32` of tokio does. -/
def read_u32_be (s : List Nat) : Option (Nat × List Nat) :=
  match s with
  | b0 :: b1 :: b2 :: b3 :: rest => some (u32_from_be_bytes b0 b1 b2 b3, rest)
  | _ => none

/-- Embeds `read_exact` into a buffer of length n: consumes exactly n bytes,
failing when the stream is shorter. -/
def read_exact_bytes (n : Nat) (s : List Nat) : Option (List Nat × List Nat) :=
  if n ≤ s.length then some (s.take n, s.drop n) else none

/-- Embeds the ClientCutText arm (`6 => ...`) of `ClientMessage::read_from`
in src/rfb/mod.rs (lines 592-608), starting at the leading message-type byte.
The source reads 3 padding bytes, then a big-endian u32 `len`, then calls
`read_exact(&mut buf)` where `buf` is `Vec::with_capacity(len as usize)`:
that vector has LENGTH 0 (only its capacity is `len`), so `read_exact` fills
zero bytes; `len` is never used to size a read.  The result is the byte
content handed to `String::from_utf8` (trivially valid for the empty buffer)
paired with the unconsumed remainder of the stream. -/
def client_cut_text_read (s : List Nat) : Option (List Nat × List Nat) :=
  match read_u8 s with
  | none => none
  | some (t, s1) =>
    if t = 6 then
      match read_exact_bytes 3 s1 with
      | none => none
      | some (_, s2) =>
        match read_u32_be s2 with
        | none => none
        | some (len, s3) =>
          let buf : List Nat := []
          let _capacity := len
          match read_exact_bytes buf.length s3 with
          | none => none
          | some (text_bytes, s4) => some (text_bytes, s4)
    else none

/-- C1: the claim says the transcoder reassembles each rescaled channel at
the OUTPUT shifts so that channel extraction under the output format agrees
with extraction from the source pixel under the input format.  The code binds
`out_cf` from `input.color_spec` (src/pixel_formats.rs line 295), so the
reassembly uses the INPUT shifts: transcoding the pixel 12 34 56 78 from
XR24 to RX24 yields 12 34 56 00, and the red channel extracted under RX24
is 0x00 while the red channel of the source pixel under XR24 is 0x56.  The
crate test test_rgb_transform (lines 370-380) expects 00 12 34 56 here, so
the code contradicts its own test. -/
theorem c1_channel_preservation_fails :
    transform [0x12, 0x34, 0x56, 0x78] (FourCC.to_pixel_format FourCC.XR24)
        (FourCC.to_pixel_format FourCC.RX24)
      = Except.ok [0x12, 0x34, 0x56, 0x00]
    ∧ extract_red [0x12, 0x34, 0x56, 0x00] (FourCC.to_pixel_format FourCC.RX24)
      ≠ extract_red [0x12, 0x34, 0x56, 0x78] (FourCC.to_pixel_format FourCC.XR24) :=
  ⟨rfl, by decide⟩

/-- C2: the claim (and the crate test test_rgb_transform) says transcoding
the single pixel 12 34 56 78 from XR24 to RX24 yields 00 12 34 56.  Because
`out_cf` is bound from the input format (src/pixel_formats.rs line 295), the
code actually yields 12 34 56 00. -/
theorem c2_xr24_to_rx24_eval :
    transform [0x12, 0x34, 0x56, 0x78] (FourCC.to_pixel_format FourCC.XR24)
        (FourCC.to_pixel_format FourCC.RX24)
      = Except.ok [0x12, 0x34, 0x56, 0x00]
    ∧ ([0x12, 0x34, 0x56, 0x00] : List Nat) ≠ [0x00, 0x12, 0x34, 0x56] :=
  ⟨rfl, by decide⟩

/-- C3: during initialisation the ServerInit message written to the client
carries the pixel format, width and height taken from the Data snapshot.
The constructor of the newer rfb module is modelled from the spec (see
`ServerInit.new`); the caller `rfb_initialization` of src/server.rs passes
the snapshot fields. -/
theorem c3_server_init_snapshot (config : VncServerConfig) (data : VncServerData) :
    (rfb_initialization config data).pixel_format = data.input_pixel_format
    ∧ (rfb_initialization config data).initial_res.width = data.width
    ∧ (rfb_initialization config data).initial_res.height = data.height :=
  ⟨rfl, rfl, rfl⟩

/-- C4: the claim says a ClientCutText message (leading byte 6) consumes 3
padding bytes, the big-endian u32 length, and then exactly `length` further
bytes which become the text.  The code passes `Vec::with_capacity(len)` - a
buffer of length 0 - to `read_exact`, so zero payload bytes are consumed:
on the stream 06 000000 00000005 "hello" the code yields empty text and
leaves all five payload bytes unread. -/
theorem c4_cut_text_reads_no_payload :
    client_cut_text_read [6, 0, 0, 0, 0, 0, 0, 5, 104, 101, 108, 108, 111]
      = some ([], [104, 101, 108, 108, 111]) := rfl

/-- C5 counterexample: the claim says EVERY choice byte outside the
advertised set gets exactly one SecurityResult::Failure before the close.
Byte 3 decodes to no SecurityType at all, so `SecurityType::read_from` fails
and the error propagates out of rfb_handshake via the question-mark operator:
the connection closes with ZERO Failure messages written. -/
theorem c5_counterexample :
    (rfb_handshake { version := ProtoVersion.Rfb38,
                     sec_types := [SecurityType.None], name := "rfb" }
        ProtoVersion.Rfb38 3).1.countP WireWrite.is_failure = 0
    ∧ ¬ ((rfb_handshake { version := ProtoVersion.Rfb38,
                          sec_types := [SecurityType.None], name := "rfb" }
        ProtoVersion.Rfb38 3).1.countP WireWrite.is_failure = 1)
    ∧ (rfb_handshake { version := ProtoVersion.Rfb38,
                       sec_types := [SecurityType.None], name := "rfb" }
        ProtoVersion.Rfb38 3).2 = false := by decide

/-- C5 as amended: for every choice byte that DECODES to a SecurityType
(bytes 1 and 2) whose decoded type is not contained in the advertised list,
the handshake writes exactly one SecurityResult::Failure and then bails,
closing the connection. -/
theorem c5_decoded_invalid_choice_failure (config : VncServerConfig)
    (cv : ProtoVersion) (b : Nat) (t : SecurityType)
    (hv : ProtoVersion.lt cv config.version = false)
    (hd : SecurityType.read_byte b = some t)
    (hc : config.sec_types.contains t = false) :
    (rfb_handshake config cv b).1.countP WireWrite.is_failure = 1
    ∧ (rfb_handshake config cv b).2 = false := by
  simp [rfb_handshake, hv, hd, hc, List.countP_cons, WireWrite.is_failure]

/-- C5 witness: a concrete run of the amended statement - advertised set
{None}, choice byte 2 (decodes to VncAuthentication, not advertised). -/
theorem c5_decoded_invalid_choice_failure_witness :
    (rfb_handshake { version := ProtoVersion.Rfb38,
                     sec_types := [SecurityType.None], name := "rfb" }
        ProtoVersion.Rfb38 2).1.countP WireWrite.is_failure = 1
    ∧ (rfb_handshake { version := ProtoVersion.Rfb38,
                       sec_types := [SecurityType.None], name := "rfb" }
        ProtoVersion.Rfb38 2).2 = false :=
  c5_decoded_invalid_choice_failure
    { version := ProtoVersion.Rfb38, sec_types := [SecurityType.None], name := "rfb" }
    ProtoVersion.Rfb38 2 SecurityType.VncAuthentication
    (by decide) (by decide) (by decide)

/-- C6: a parsed client version numerically below the server version closes
the connection right after the version write - the write list is exactly the
single version message, with no security bytes; a client version at or above
the server version proceeds: the version written is the server version and
the advertised security types are written next. -/
theorem c6_version_gate (config : VncServerConfig) (cv : ProtoVersion) (b : Nat) :
    (ProtoVersion.lt cv config.version = true →
      rfb_handshake config cv b = ([WireWrite.protoVersion config.version], false))
    ∧ (ProtoVersion.lt cv config.version = false →
      (rfb_handshake config cv b).1.head? = some (WireWrite.protoVersion config.version)
      ∧ (rfb_handshake config cv b).1.get? 1
        = some (WireWrite.securityTypes config.sec_types)) := by
  constructor
  · intro h
    simp [rfb_handshake, h]
  · intro h
    cases hrb : SecurityType.read_byte b with
    | none => simp [rfb_handshake, h, hrb]
    | some t =>
      by_cases hc : config.sec_types.contains t <;>
        simp [rfb_handshake, h, hrb, hc]

/-- C6 witness: concrete runs of both halves - client 3.3 against server 3.8
closes after the version write alone; client 3.8 against server 3.8
proceeds with the server version first on the wire. -/
theorem c6_version_gate_witness :
    rfb_handshake { version := ProtoVersion.Rfb38,
                    sec_types := [SecurityType.None], name := "rfb" }
        ProtoVersion.Rfb33 1
      = ([WireWrite.protoVersion ProtoVersion.Rfb38], false)
    ∧ (rfb_handshake { version := ProtoVersion.Rfb38,
                       sec_types := [SecurityType.None], name := "rfb" }
        ProtoVersion.Rfb38 1).1.head?
      = some (WireWrite.protoVersion ProtoVersion.Rfb38) :=
  ⟨(c6_version_gate
      { version := ProtoVersion.Rfb38, sec_types := [SecurityType.None], name := "rfb" }
      ProtoVersion.Rfb33 1).1 (by decide),
   ((c6_version_gate
      { version := ProtoVersion.Rfb38, sec_types := [SecurityType.None], name := "rfb" }
      ProtoVersion.Rfb38 1).2 (by decide)).1⟩

set_option maxRecDepth 4096 in
/-- C7: the SecurityType wire codec is asymmetric - writing emits None as 0
and VncAuthentication as 1, while reading decodes 1 as None and 2 as
VncAuthentication and rejects every other byte; consequently the byte the
server writes for None is not even readable back. -/
theorem c7_security_type_codec_asymmetry :
    SecurityType.write_byte SecurityType.None = 0
    ∧ SecurityType.write_byte SecurityType.VncAuthentication = 1
    ∧ SecurityType.read_byte 1 = some SecurityType.None
    ∧ SecurityType.read_byte 2 = some SecurityType.VncAuthentication
    ∧ (∀ b : Fin 256, SecurityType.read_byte b.val = none ∨ b.val = 1 ∨ b.val = 2)
    ∧ SecurityType.read_byte (SecurityType.write_byte SecurityType.None) = none
    ∧ SecurityType.read_byte (SecurityType.write_byte SecurityType.VncAuthentication)
      = some SecurityType.None := by decide

/-- C8: the claim says transform reads exactly in_bpp/8 bytes per pixel and
never indexes past the end of the buffer.  The code copies
`pixels[i..i + 4]` - four bytes - per pixel regardless of the pixel size
(src/pixel_formats.rs line 302), so a single 16-bit RG16 pixel (a 2-byte
buffer, a length that IS a multiple of in_bpp/8 = 2) makes the slice index
run past the end of the buffer and the code aborts. -/
theorem c8_reads_four_bytes_out_of_bounds :
    transform [0, 0] (FourCC.to_pixel_format FourCC.RG16)
        (FourCC.to_pixel_format FourCC.BG16)
      = Except.error TransformPanic.indexOutOfBounds := rfl

/-- C9 counterexample: the claim says a zero input channel max makes
transform fail with an InvalidPixelFormat error rather than aborting.  The
code has no such check and no error path at all (it returns a plain byte
vector); with red_max = 0 the channel rescale divides by zero and the code
aborts (Except.error in this embedding models a Rust abort, not a returned
error value). -/
theorem c9_counterexample :
    transform [0, 0, 0, 0]
      { bits_per_pixel := 32, depth := 24, big_endian := false,
        color_spec := ColorSpecification.ColorFormat
          { red_max := 0, green_max := 255, blue_max := 255,
            red_shift := 16, green_shift := 8, blue_shift := 0 } }
      (FourCC.to_pixel_format FourCC.XR24)
      = Except.error TransformPanic.divideByZero := rfl

/-- C9 as amended: for every input format with ANY channel max equal to 0
(red, green or blue), every distinct output format and every pixel buffer of
at least four bytes, with both formats inside the spec precondition
`bits_per_pixel` in {8, 16, 32} (the region where this embedding matches the
Rust code abort-for-abort), transform aborts with a division by zero (there
is no InvalidPixelFormat error - the function has no error path).  The
divisions run red, green, blue in source order, so the first zero max is the
one that fires. -/
theorem c9_zero_max_aborts (p : List Nat) (f g : PixelFormat) (cf : ColorFormat)
    (hne : f ≠ g) (hcs : f.color_spec = ColorSpecification.ColorFormat cf)
    (hmax : cf.red_max = 0 ∨ cf.green_max = 0 ∨ cf.blue_max = 0)
    (hin : f.bits_per_pixel = 8 ∨ f.bits_per_pixel = 16 ∨ f.bits_per_pixel = 32)
    (hout : g.bits_per_pixel = 8 ∨ g.bits_per_pixel = 16 ∨ g.bits_per_pixel = 32)
    (hlen : 4 ≤ p.length) :
    transform p f g = Except.error TransformPanic.divideByZero := by
  have h0 : 0 < p.length := by omega
  have h4 : 0 + 4 ≤ p.length := by omega
  unfold transform
  rw [if_neg hne, hcs]
  simp only [transform_loop, h0, h4, if_true, if_pos]
  rcases eq_or_ne cf.red_max 0 with hr | hr
  · simp [checked_div, hr]
  · rcases eq_or_ne cf.green_max 0 with hg | hg
    · simp [checked_div, hr, hg]
    · have hb : cf.blue_max = 0 := by tauto
      simp [checked_div, hr, hg, hb]

/-- C9 witness: a concrete run of the amended statement - XR24 with its
green max zeroed (red and blue intact), transcoded to plain XR24 over one
4-byte pixel, both formats being 32 bits per pixel. -/
theorem c9_zero_max_aborts_witness :
    transform [0, 0, 0, 1]
      { bits_per_pixel := 32, depth := 24, big_endian := false,
        color_spec := ColorSpecification.ColorFormat
          { red_max := 255, green_max := 0, blue_max := 255,
            red_shift := 16, green_shift := 8, blue_shift := 0 } }
      (FourCC.to_pixel_format FourCC.XR24)
      = Except.error TransformPanic.divideByZero :=
  c9_zero_max_aborts [0, 0, 0, 1]
    { bits_per_pixel := 32, depth := 24, big_endian := false,
      color_spec := ColorSpecification.ColorFormat
        { red_max := 255, green_max := 0, blue_max := 255,
          red_shift := 16, green_shift := 8, blue_shift := 0 } }
    (FourCC.to_pixel_format FourCC.XR24)
    { red_max := 255, green_max := 0, blue_max := 255,
      red_shift := 16, green_shift := 8, blue_shift := 0 }
    (by decide) rfl (by decide) (by decide) (by decide) (by decide)

/-- C10: for every pixel buffer and every pixel format whatsoever -
indexed-colour and zero-max formats included - transforming a buffer from a
format to itself returns the buffer unchanged with no abort, because the
structural-equality short-circuit at the top of transform runs before the
colour-map match and the channel arithmetic. -/
theorem c10_transform_same_format_identity (p : List Nat) (f : PixelFormat) :
    transform p f f = Except.ok p := by
  simp [transform]

end Rfb
